import Mathlib

/-!
# Node creation and deletion of `pkg/cluster/node.go`

A shallow embedding of `CreateNodes`, `CreateNode`, `DeleteNode`, `patchWorkerSpec` and
`patchMasterSpec`, followed by the properties proved about them.

Go pointers to nodes become node values that are passed in and handed back; the container
engine behind a runtime becomes an explicit state `σ` threaded through every call, together
with a trace of the runtime operations invoked and the lines logged at error level.
-/

namespace Cluster

/-! ## Data model (package `types`) -/

/-- A Go `error` value, identified by the message its `Error()` method gives. -/
structure GoError where
  msg : String

/-- A Go `map[string]string` holding finitely many entries with pairwise distinct keys.
Reading a key is `AList.lookup`, the assignment `m[k] = v` is `AList.insert`. -/
abbrev StrMap := AList (fun _ : String => String)

/-- Modelled from the spec: the type `ExposeAPI` of package `types` (not under `src/`), the
API-exposure descriptor with its optional `host`, `hostIP` and `port` fields; an option that
is not given is the empty string, which is what `node.go` tests for. -/
structure ExposeAPI where
  Host : String
  HostIP : String
  Port : String

/-- Modelled from the spec: the role options of a control-plane node (type `MasterOpts` of
package `types`, not under `src/`), of which `node.go` reads the field `ExposeAPI`. -/
structure MasterOpts where
  ExposeAPI : ExposeAPI

/-- Modelled from the spec: the node specification (type `Node` of package `types`, not under
`src/`) with the fields `name`, `role`, `labels`, `env`, `args`, `ports` and the role options.
`Role` is a string type in Go (the code converts it with `string(...)` and prints it with
`%s`). `Labels` is the mapping from key to value: a nil Go map reads and ranges like the
empty mapping. The role patches assign into the map; they are reached only from `CreateNode`,
after it has installed a freshly made map (lines 55-62), so an assignment into a nil map,
which panics in Go, does not arise there and is not modelled. -/
structure Node where
  Name : String
  Role : String
  Labels : StrMap
  Env : List String
  Args : List String
  Ports : List String
  MasterOpts : MasterOpts

/-- Modelled from the spec: the constant `k3d.WorkerRole` (package `types`, not under `src/`);
the generated label `k3d.role` of a worker is `"worker"`. -/
def WorkerRole : String := "worker"

/-- Modelled from the spec: the constant `k3d.MasterRole` (package `types`, not under `src/`);
the generated label `k3d.role` of a control-plane node is `"master"`. -/
def MasterRole : String := "master"

/-- The process-wide defaults `k3d.DefaultObjectLabels` and `k3d.DefaultNodeEnv`. Their values
are set in package `types`, outside `src/`, so they are parameters of the development. -/
structure Defaults where
  DefaultObjectLabels : StrMap
  DefaultNodeEnv : List String

/-! ## Runtimes (package `runtimes`) -/

/-- Modelled from the spec: the interface `k3drt.Runtime` (package `runtimes`, not under
`src/`), the two operations `CreateNode(spec) -> Result<(), Error>` and
`DeleteNode(spec) -> Result<(), Error>`. An operation reads the specification and the state
`σ` of the container engine, and gives back the error it returns (`none` is Go `nil`) and the
new engine state. -/
structure Runtime (σ : Type) where
  CreateNode : Node → σ → Option GoError × σ
  DeleteNode : Node → σ → Option GoError × σ

/-- The two concrete runtimes `DeleteNode` chooses between. -/
inductive Engine where
  | Docker
  | Containerd
  deriving DecidableEq

/-- One invocation of a runtime operation, as recorded in the trace. -/
inductive Call where
  /-- The call `runtime.CreateNode(node)` of line 84, on the runtime handed to `CreateNode`. -/
  | createNode (spec : Node)
  /-- The call `runtime.DeleteNode(node)` of line 100, on the runtime chosen in lines 94-98. -/
  | deleteNode (engine : Engine) (spec : Node)

/-- Everything outside the node that a call can change: the engine state, the runtime
operations invoked so far (oldest first) and the errors logged with `log.Error` (oldest first).
The `log.Debugf` lines are not recorded: they change neither the node nor the control flow. -/
structure World (σ : Type) where
  backend : σ
  calls : List Call
  errorLog : List GoError

/-- What a call on one node leaves behind: the node as mutated through the pointer, the
returned `error` (`none` is `nil`) and the world. -/
structure Ret (σ : Type) where
  node : Node
  err : Option GoError
  world : World σ

/-! ## `node.go` -/

/-- The loop `for k, v := range m { labels[k] = v }` of lines 56-58 and 59-61. Go visits the
entries of `m` in an unspecified order; the keys are pairwise distinct, so every order leaves
the same mapping (`lookup_rangeAssign`). -/
def rangeAssign (m : StrMap) (labels : StrMap) : StrMap :=
  m.entries.foldl (fun acc e => acc.insert e.1 e.2) labels

/-- Lines 107-111, `patchWorkerSpec`. -/
def patchWorkerSpec (node : Node) : Node × Option GoError :=
  let node := { node with Args := ["agent"] ++ node.Args }
  let node := { node with Labels := node.Labels.insert "k3d.role" WorkerRole }
  (node, none)

/-- Lines 114-137, `patchMasterSpec`. The local variables `hostIP` and `apiPort` are threaded
through the two `if` statements together with the node. The comment of line 113 speaks of
worker node settings; the body writes the control-plane ones (`server`, `k3d.role=master`),
and the body is what is embedded. -/
def patchMasterSpec (node : Node) : Node × Option GoError :=
  let node := { node with Args := ["server"] ++ node.Args }
  let node := { node with Labels := node.Labels.insert "k3d.role" MasterRole }
  let hostIP := "0.0.0.0"
  let apiPort := "6443"
  let (apiPort, node) :=
    if node.MasterOpts.ExposeAPI.Port ≠ "" then
      (node.MasterOpts.ExposeAPI.Port,
        { node with
          Labels := node.Labels.insert "k3d.master.api.port" node.MasterOpts.ExposeAPI.Port })
    else (apiPort, node)
  let (hostIP, node) :=
    if node.MasterOpts.ExposeAPI.Host ≠ "" then
      let node := { node with
        Labels := node.Labels.insert "k3d.master.api.hostIP" node.MasterOpts.ExposeAPI.HostIP }
      let node := { node with
        Labels := node.Labels.insert "k3d.master.api.host" node.MasterOpts.ExposeAPI.Host }
      (node.MasterOpts.ExposeAPI.HostIP,
        { node with Args := node.Args ++ ["--tls-san", node.MasterOpts.ExposeAPI.Host] })
    else (hostIP, node)
  let node := { node with Ports := node.Ports ++ [hostIP ++ ":" ++ apiPort ++ ":6443/tcp"] }
  (node, none)

/-- Lines 54-65 of `CreateNode`, the configuration that applies to any node role: the label
map is replaced by a freshly made one, filled from the defaults and then from the labels of
the node, and the default environment is appended. -/
def mergeDefaults (defaults : Defaults) (node : Node) : Node :=
  let labels : StrMap := ∅
  let labels := rangeAssign defaults.DefaultObjectLabels labels
  let labels := rangeAssign node.Labels labels
  let node := { node with Labels := labels }
  let node := { node with Env := node.Env ++ defaults.DefaultNodeEnv }
  node

/-- Lines 45-89, `CreateNode`. The three branches on the role either return early with an
error or fall through to the creation step with the patched node. -/
def CreateNode {σ : Type} (defaults : Defaults) (node : Node) (runtime : Runtime σ)
    (w : World σ) : Ret σ :=
  let node := mergeDefaults defaults node
  let (node, early) :=
    if node.Role = WorkerRole then patchWorkerSpec node
    else if node.Role = MasterRole then patchMasterSpec node
    else (node, some ⟨"Unknown node role \x27" ++ node.Role ++ "\x27"⟩)
  match early with
  | some err => ⟨node, some err, w⟩
  | none =>
    let (err, backend) := runtime.CreateNode node w.backend
    ⟨node, err, { w with backend := backend, calls := w.calls ++ [Call.createNode node] }⟩

/-- Lines 36-42, `CreateNodes`. The slice of node pointers is a list of nodes, one value per
pointer (no node occurs twice); the nodes are handed back as the calls left them. -/
def CreateNodes {σ : Type} (defaults : Defaults) :
    List Node → Runtime σ → World σ → List Node × World σ
  | [], _, w => ([], w)
  | node :: nodes, runtime, w =>
    let r := CreateNode defaults node runtime w
    let w := match r.err with
      | some err => { r.world with errorLog := r.world.errorLog ++ [err] }
      | none => r.world
    let rest := CreateNodes defaults nodes runtime w
    (r.node :: rest.1, rest.2)

/-- Lines 92-104, `DeleteNode`. The values `k3dDocker.Docker{}` and
`k3dContainerd.Containerd{}` come from packages outside `src/` and are parameters. -/
def DeleteNode {σ : Type} (k3dDocker k3dContainerd : Runtime σ) (node : Node)
    (runtimeChoice : String) (w : World σ) : Ret σ :=
  let (engine, runtime) :=
    if runtimeChoice = "docker" then (Engine.Docker, k3dDocker)
    else (Engine.Containerd, k3dContainerd)
  let (err, backend) := runtime.DeleteNode node w.backend
  let w := { w with backend := backend, calls := w.calls ++ [Call.deleteNode engine node] }
  let w := match err with
    | some err => { w with errorLog := w.errorLog ++ [err] }
    | none => w
  ⟨node, none, w⟩

/-! ## Vocabulary of the statements -/

/-- The specification that lines 54-79 derive from a node whose role is valid: the defaults
merged in, then the patch of the role applied. The theorems compare what `CreateNode` hands
to the runtime with it. -/
def derivedSpec (defaults : Defaults) (node : Node) : Node :=
  if node.Role = WorkerRole then (patchWorkerSpec (mergeDefaults defaults node)).1
  else (patchMasterSpec (mergeDefaults defaults node)).1

/-- What the runtime answers when its `CreateNode` is called on `specs`, one after the other,
starting from the engine state `s`. -/
def createReplies {σ : Type} (runtime : Runtime σ) : List Node → σ → List (Option GoError)
  | [], _ => []
  | spec :: specs, s =>
    (runtime.CreateNode spec s).1 :: createReplies runtime specs (runtime.CreateNode spec s).2

/-- The number of positions of `args` at which the argument `a` is directly followed by the
argument `b`: how often the adjacent pair `a b` occurs. -/
def countPair (a b : String) : List String → Nat
  | [] => 0
  | x :: rest => (if x = a ∧ rest.head? = some b then 1 else 0) + countPair a b rest

/-! ## Concrete nodes, defaults and runtimes used to instantiate the theorems -/

/-- The control-plane node of the second example of the spec: host `cluster.example.com`,
host IP `10.0.0.5`, port `7443`; one argument and one port mapping of its own. -/
def exposedMaster : Node :=
  ⟨"master-0", "master", ∅, ["A=1"], ["--no-deploy"], ["8080:80/tcp"],
    ⟨⟨"cluster.example.com", "10.0.0.5", "7443"⟩⟩⟩

/-- A control-plane node without exposure options, with two arguments of its own. -/
def plainMaster : Node :=
  ⟨"master-1", "master", ∅, [], ["--docker", "-v"], [], ⟨⟨"", "", ""⟩⟩⟩

/-- A worker node that already carries a label `k3d.role` and a label `app` of its own. -/
def labelledWorker : Node :=
  ⟨"worker-0", "worker", (AList.insert "k3d.role" "custom" (AList.insert "app" "mine" ∅)),
    ["B=2"], ["--kubelet-arg", "x"], [], ⟨⟨"", "", ""⟩⟩⟩

/-- A node whose role is neither `worker` nor `master`. -/
def strayNode : Node :=
  ⟨"lb-0", "loadbalancer", ∅, ["C=3"], ["run"], ["80:80"], ⟨⟨"", "", ""⟩⟩⟩

/-- Defaults in the shape of the ones of k3d: one label and one environment entry. -/
def sampleDefaults : Defaults :=
  ⟨AList.insert "app" "k3d" ∅, ["K3S_KUBECONFIG_OUTPUT=/output/kubeconfig.yaml"]⟩

/-- A runtime whose engine state counts the operations it has served; it refuses to create a
node named `master-1` and every deletion fails. -/
def countingRuntime : Runtime Nat where
  CreateNode := fun node s =>
    (if node.Name = "master-1" then some ⟨"create failed"⟩ else none, s + 1)
  DeleteNode := fun _ s => (some ⟨"delete failed"⟩, s + 1)

/-- A runtime on which every operation succeeds. -/
def quietRuntime : Runtime Nat where
  CreateNode := fun _ s => (none, s + 1)
  DeleteNode := fun _ s => (none, s + 1)

/-- The world before any call: engine state `0`, no call made, nothing logged. -/
def freshWorld : World Nat := ⟨0, [], []⟩

/-- A control-plane node exposed on `cluster.example.com` whose own arguments already hold
`--tls-san cluster.example.com`. -/
def sanMaster : Node :=
  ⟨"master-2", "master", ∅, [], ["--tls-san", "cluster.example.com"], [],
    ⟨⟨"cluster.example.com", "10.0.0.5", ""⟩⟩⟩

/-- A control-plane node without exposure host, whose own arguments hold a `--tls-san` and
whose own labels hold the two host keys; a host IP is supplied all the same. -/
def hostlessMaster : Node :=
  ⟨"master-3", "master",
    (AList.insert "k3d.master.api.host" "old.example.com"
      (AList.insert "k3d.master.api.hostIP" "192.168.0.1" ∅)),
    [], ["--tls-san", "old.example.com"], [], ⟨⟨"", "10.0.0.5", ""⟩⟩⟩

/-- The node `hostlessMaster` with another host IP supplied. -/
def hostlessMasterOtherIP : Node :=
  { hostlessMaster with MasterOpts := ⟨⟨"", "172.16.0.9", ""⟩⟩ }

/-- A control-plane node without exposure options whose own ports already hold the default
mapping `0.0.0.0:6443:6443/tcp`. -/
def boundMaster : Node :=
  ⟨"master-4", "master", ∅, [], [], ["0.0.0.0:6443:6443/tcp"], ⟨⟨"", "", ""⟩⟩⟩

/-- A control-plane node with an exposure host but neither host IP nor port. -/
def namedMaster : Node :=
  ⟨"master-5", "master", ∅, [], [], [], ⟨⟨"cluster.example.com", "", ""⟩⟩⟩

/-! ## Lemmas on the embedding -/

/-- Filling `labels` from the entries `es` (distinct keys) leaves at `k` the value `es` has
for `k`, and otherwise what `labels` had. -/
theorem lookup_foldl_insert (es : List (Sigma fun _ : String => String)) (hes : es.NodupKeys)
    (labels : StrMap) (k : String) :
    (es.foldl (fun acc e => acc.insert e.1 e.2) labels).lookup k =
      match List.dlookup k es with
      | some v => some v
      | none => labels.lookup k := by
  induction es generalizing labels with
  | nil => simp
  | cons e es ih =>
    obtain ⟨hk, hes⟩ := List.nodupKeys_cons.1 hes
    rw [List.foldl_cons, ih hes]
    by_cases h : k = e.1
    · subst h
      rw [List.dlookup_eq_none.2 hk]
      obtain ⟨a, b⟩ := e
      simp [List.dlookup_cons_eq, AList.lookup_insert]
    · rw [List.dlookup_cons_ne _ _ h, AList.lookup_insert_ne h]

/-- The range loop as a mapping: the entries of `m` win over what `labels` held. -/
theorem lookup_rangeAssign (m labels : StrMap) (k : String) :
    (rangeAssign m labels).lookup k =
      match m.lookup k with
      | some v => some v
      | none => labels.lookup k :=
  lookup_foldl_insert m.entries m.nodupKeys labels k

/-- The labels after the merge of lines 54-62: the value of the node, else the default. -/
theorem lookup_mergeDefaults (defaults : Defaults) (node : Node) (k : String) :
    (mergeDefaults defaults node).Labels.lookup k =
      match node.Labels.lookup k with
      | some v => some v
      | none => defaults.DefaultObjectLabels.lookup k := by
  simp only [mergeDefaults, lookup_rangeAssign, AList.lookup_empty]
  cases node.Labels.lookup k <;> cases defaults.DefaultObjectLabels.lookup k <;> rfl

/-- The result of `patchMasterSpec` field by field. -/
theorem patchMasterSpec_eq (node : Node) :
    patchMasterSpec node =
      ({ node with
          Args :=
            if node.MasterOpts.ExposeAPI.Host ≠ "" then
              ["server"] ++ node.Args ++ ["--tls-san", node.MasterOpts.ExposeAPI.Host]
            else ["server"] ++ node.Args
          Labels :=
            if node.MasterOpts.ExposeAPI.Host ≠ "" then
              AList.insert "k3d.master.api.host" node.MasterOpts.ExposeAPI.Host
                (AList.insert "k3d.master.api.hostIP" node.MasterOpts.ExposeAPI.HostIP
                  (if node.MasterOpts.ExposeAPI.Port ≠ "" then
                    AList.insert "k3d.master.api.port" node.MasterOpts.ExposeAPI.Port
                      (AList.insert "k3d.role" MasterRole node.Labels)
                  else AList.insert "k3d.role" MasterRole node.Labels))
            else if node.MasterOpts.ExposeAPI.Port ≠ "" then
              AList.insert "k3d.master.api.port" node.MasterOpts.ExposeAPI.Port
                (AList.insert "k3d.role" MasterRole node.Labels)
            else AList.insert "k3d.role" MasterRole node.Labels
          Ports :=
            node.Ports ++
              [(if node.MasterOpts.ExposeAPI.Host ≠ "" then node.MasterOpts.ExposeAPI.HostIP
                else "0.0.0.0") ++ ":" ++
                (if node.MasterOpts.ExposeAPI.Port ≠ "" then node.MasterOpts.ExposeAPI.Port
                else "6443") ++ ":6443/tcp"] },
        none) := by
  unfold patchMasterSpec
  by_cases hp : node.MasterOpts.ExposeAPI.Port = "" <;>
    by_cases hh : node.MasterOpts.ExposeAPI.Host = "" <;>
    simp [hp, hh]

/-- `CreateNode` on a worker: merge, patch, then one call of the runtime. -/
theorem CreateNode_worker {σ : Type} (defaults : Defaults) (node : Node) (runtime : Runtime σ)
    (w : World σ) (h : node.Role = WorkerRole) :
    CreateNode defaults node runtime w =
      ⟨(patchWorkerSpec (mergeDefaults defaults node)).1,
        (runtime.CreateNode (patchWorkerSpec (mergeDefaults defaults node)).1 w.backend).1,
        ⟨(runtime.CreateNode (patchWorkerSpec (mergeDefaults defaults node)).1 w.backend).2,
          w.calls ++ [Call.createNode (patchWorkerSpec (mergeDefaults defaults node)).1],
          w.errorLog⟩⟩ := by
  have hr : (mergeDefaults defaults node).Role = WorkerRole := h
  simp [CreateNode, hr, patchWorkerSpec]

/-- `CreateNode` on a control-plane node: merge, patch, then one call of the runtime. -/
theorem CreateNode_master {σ : Type} (defaults : Defaults) (node : Node) (runtime : Runtime σ)
    (w : World σ) (h : node.Role = MasterRole) :
    CreateNode defaults node runtime w =
      ⟨(patchMasterSpec (mergeDefaults defaults node)).1,
        (runtime.CreateNode (patchMasterSpec (mergeDefaults defaults node)).1 w.backend).1,
        ⟨(runtime.CreateNode (patchMasterSpec (mergeDefaults defaults node)).1 w.backend).2,
          w.calls ++ [Call.createNode (patchMasterSpec (mergeDefaults defaults node)).1],
          w.errorLog⟩⟩ := by
  have hr : (mergeDefaults defaults node).Role = MasterRole := h
  have hw : ¬ (mergeDefaults defaults node).Role = WorkerRole := by
    rw [hr]; decide
  have hp : (patchMasterSpec (mergeDefaults defaults node)).2 = none := by
    rw [patchMasterSpec_eq]
  unfold CreateNode
  simp only [hr, hw, if_true, if_false]
  generalize patchMasterSpec (mergeDefaults defaults node) = p at hp ⊢
  obtain ⟨n, e⟩ := p
  simp only at hp
  subst hp
  rfl

/-- `CreateNode` on any other role: merged, then the early return; the world is untouched. -/
theorem CreateNode_unknown {σ : Type} (defaults : Defaults) (node : Node)
    (runtime : Runtime σ) (w : World σ) (hw : node.Role ≠ WorkerRole)
    (hm : node.Role ≠ MasterRole) :
    CreateNode defaults node runtime w =
      ⟨mergeDefaults defaults node,
        some ⟨"Unknown node role \x27" ++ node.Role ++ "\x27"⟩, w⟩ := by
  have hw' : ¬ (mergeDefaults defaults node).Role = WorkerRole := hw
  have hm' : ¬ (mergeDefaults defaults node).Role = MasterRole := hm
  simp only [CreateNode, hw', hm', if_false]
  rfl

/-- The patch of a control-plane node writes `k3d.role` first and no later write touches it. -/
theorem patchMasterSpec_lookup_role (node : Node) :
    (patchMasterSpec node).1.Labels.lookup "k3d.role" = some MasterRole := by
  rw [patchMasterSpec_eq]
  have h1 : ("k3d.role" : String) ≠ "k3d.master.api.port" := by decide
  have h2 : ("k3d.role" : String) ≠ "k3d.master.api.hostIP" := by decide
  have h3 : ("k3d.role" : String) ≠ "k3d.master.api.host" := by decide
  by_cases hp : node.MasterOpts.ExposeAPI.Port = "" <;>
    by_cases hh : node.MasterOpts.ExposeAPI.Host = "" <;>
    simp [hp, hh, AList.lookup_insert_ne h1, AList.lookup_insert_ne h2,
      AList.lookup_insert_ne h3, AList.lookup_insert]

/-- The patch of a control-plane node leaves every label outside its four keys as it was. -/
theorem patchMasterSpec_lookup_other (node : Node) (k : String) (h0 : k ≠ "k3d.role")
    (h1 : k ≠ "k3d.master.api.port") (h2 : k ≠ "k3d.master.api.hostIP")
    (h3 : k ≠ "k3d.master.api.host") :
    (patchMasterSpec node).1.Labels.lookup k = node.Labels.lookup k := by
  rw [patchMasterSpec_eq]
  by_cases hp : node.MasterOpts.ExposeAPI.Port = "" <;>
    by_cases hh : node.MasterOpts.ExposeAPI.Host = "" <;>
    simp [hp, hh, AList.lookup_insert_ne h0, AList.lookup_insert_ne h1,
      AList.lookup_insert_ne h2, AList.lookup_insert_ne h3]

/-- The patch of a control-plane node leaves the environment as it was. -/
theorem patchMasterSpec_env (node : Node) : (patchMasterSpec node).1.Env = node.Env := by
  rw [patchMasterSpec_eq]

/-- `CreateNode` on a node with a valid role, in terms of `derivedSpec`. -/
theorem CreateNode_valid {σ : Type} (defaults : Defaults) (node : Node) (runtime : Runtime σ)
    (w : World σ) (h : node.Role = WorkerRole ∨ node.Role = MasterRole) :
    CreateNode defaults node runtime w =
      ⟨derivedSpec defaults node,
        (runtime.CreateNode (derivedSpec defaults node) w.backend).1,
        ⟨(runtime.CreateNode (derivedSpec defaults node) w.backend).2,
          w.calls ++ [Call.createNode (derivedSpec defaults node)], w.errorLog⟩⟩ := by
  by_cases hw : node.Role = WorkerRole
  · rw [CreateNode_worker defaults node runtime w hw, derivedSpec, if_pos hw]
  · have hm : node.Role = MasterRole := h.resolve_left hw
    rw [CreateNode_master defaults node runtime w hm, derivedSpec, if_neg hw]

/-- `CreateNodes` on nodes with valid roles: every node is derived and handed to the runtime,
in order, whatever the runtime answers, and every error it returns is logged. -/
theorem CreateNodes_valid {σ : Type} (defaults : Defaults) (runtime : Runtime σ)
    (nodes : List Node) (w : World σ)
    (h : ∀ node ∈ nodes, node.Role = WorkerRole ∨ node.Role = MasterRole) :
    (CreateNodes defaults nodes runtime w).1 = nodes.map (derivedSpec defaults) ∧
      (CreateNodes defaults nodes runtime w).2.calls =
        w.calls ++ (nodes.map (derivedSpec defaults)).map Call.createNode ∧
      (CreateNodes defaults nodes runtime w).2.errorLog =
        w.errorLog ++
          (createReplies runtime (nodes.map (derivedSpec defaults)) w.backend).reduceOption := by
  induction nodes generalizing w with
  | nil => simp [CreateNodes, createReplies]
  | cons node nodes ih =>
    have hn := h node (List.mem_cons_self _ _)
    have ht : ∀ n ∈ nodes, n.Role = WorkerRole ∨ n.Role = MasterRole :=
      fun n hmem => h n (List.mem_cons_of_mem _ hmem)
    simp only [CreateNodes, CreateNode_valid defaults node runtime w hn, List.map_cons,
      createReplies]
    cases hr : (runtime.CreateNode (derivedSpec defaults node) w.backend).1 with
    | none =>
      obtain ⟨h1, h2, h3⟩ := ih ⟨(runtime.CreateNode (derivedSpec defaults node) w.backend).2,
        w.calls ++ [Call.createNode (derivedSpec defaults node)], w.errorLog⟩ ht
      refine ⟨by rw [h1], ?_, ?_⟩
      · rw [h2]; simp
      · rw [h3]; simp [List.reduceOption_cons_of_none]
    | some e =>
      obtain ⟨h1, h2, h3⟩ := ih ⟨(runtime.CreateNode (derivedSpec defaults node) w.backend).2,
        w.calls ++ [Call.createNode (derivedSpec defaults node)], w.errorLog ++ [e]⟩ ht
      refine ⟨by rw [h1], ?_, ?_⟩
      · rw [h2]; simp
      · rw [h3]; simp [List.reduceOption_cons_of_some]

/-- The pair `a b` appended to arguments occurs there at least once. -/
theorem countPair_append_pair_pos (a b : String) (args : List String) :
    1 ≤ countPair a b (args ++ [a, b]) := by
  induction args with
  | nil => simp [countPair]
  | cons x rest ih =>
    rw [List.cons_append, countPair]
    exact Nat.le_trans ih (Nat.le_add_left _ _)

/-- The pair `a b` appended to arguments without any `a` occurs there exactly once. -/
theorem countPair_append_pair (a b : String) (args : List String) (h : a ∉ args) :
    countPair a b (args ++ [a, b]) = 1 := by
  induction args with
  | nil => simp [countPair]
  | cons x rest ih =>
    have hx : ¬ x = a := fun hxa => h (hxa ▸ List.mem_cons_self _ _)
    have hr : a ∉ rest := fun hmem => h (List.mem_cons_of_mem _ hmem)
    rw [List.cons_append, countPair, ih hr]
    simp [hx]

/-- An argument other than `a` in front does not change the count of the pair `a b`. -/
theorem countPair_cons_ne (a b x : String) (args : List String) (h : x ≠ a) :
    countPair a b (x :: args) = countPair a b args := by
  rw [countPair]
  simp [h]

/-- The arguments after the patch of a control-plane node. -/
theorem patchMasterSpec_args (node : Node) :
    (patchMasterSpec node).1.Args =
      "server" :: (node.Args ++
        (if node.MasterOpts.ExposeAPI.Host ≠ "" then
          ["--tls-san", node.MasterOpts.ExposeAPI.Host] else [])) := by
  rw [patchMasterSpec_eq]
  by_cases hh : node.MasterOpts.ExposeAPI.Host = "" <;> simp [hh]

/-- The ports after the patch of a control-plane node. -/
theorem patchMasterSpec_ports (node : Node) :
    (patchMasterSpec node).1.Ports =
      node.Ports ++
        [(if node.MasterOpts.ExposeAPI.Host ≠ "" then node.MasterOpts.ExposeAPI.HostIP
          else "0.0.0.0") ++ ":" ++
          (if node.MasterOpts.ExposeAPI.Port ≠ "" then node.MasterOpts.ExposeAPI.Port
          else "6443") ++ ":6443/tcp"] := by
  rw [patchMasterSpec_eq]

/-- The patch of a control-plane node leaves the role options as they were. -/
theorem patchMasterSpec_opts (node : Node) :
    (patchMasterSpec node).1.MasterOpts = node.MasterOpts := by
  rw [patchMasterSpec_eq]

/-- The node `CreateNode` leaves for a control-plane node. -/
theorem CreateNode_master_node {σ : Type} (defaults : Defaults) (node : Node)
    (runtime : Runtime σ) (w : World σ) (h : node.Role = MasterRole) :
    (CreateNode defaults node runtime w).node =
      (patchMasterSpec (mergeDefaults defaults node)).1 := by
  rw [CreateNode_master defaults node runtime w h]

/-! ## Role derivation: ports and arguments -/

/-- C1: for every control-plane node, `patchMasterSpec`, and hence `CreateNode` on it, leaves
the ports equal to the original ports followed by exactly one new last element
`<hostIP>:<apiPort>:6443/tcp`, where `apiPort` is `ExposeAPI.Port` if that is non-empty and
`6443` otherwise, and `hostIP` is `ExposeAPI.HostIP` if `ExposeAPI.Host` is non-empty and
`0.0.0.0` otherwise. -/
theorem master_ports_appended (node : Node) :
    (patchMasterSpec node).1.Ports =
        node.Ports ++
          [(if node.MasterOpts.ExposeAPI.Host ≠ "" then node.MasterOpts.ExposeAPI.HostIP
            else "0.0.0.0") ++ ":" ++
            (if node.MasterOpts.ExposeAPI.Port ≠ "" then node.MasterOpts.ExposeAPI.Port
            else "6443") ++ ":6443/tcp"] ∧
      ∀ (σ : Type) (defaults : Defaults) (runtime : Runtime σ) (w : World σ),
        node.Role = MasterRole →
        (CreateNode defaults node runtime w).node.Ports =
          node.Ports ++
            [(if node.MasterOpts.ExposeAPI.Host ≠ "" then node.MasterOpts.ExposeAPI.HostIP
              else "0.0.0.0") ++ ":" ++
              (if node.MasterOpts.ExposeAPI.Port ≠ "" then node.MasterOpts.ExposeAPI.Port
              else "6443") ++ ":6443/tcp"] := by
  refine ⟨by rw [patchMasterSpec_eq], ?_⟩
  intro σ defaults runtime w h
  rw [CreateNode_master defaults node runtime w h, patchMasterSpec_eq]
  rfl

/-- The second example of the spec: the node exposed on `cluster.example.com`, `10.0.0.5`,
`7443` ends with the port mapping `10.0.0.5:7443:6443/tcp`. -/
theorem master_ports_appended_witness :
    exposedMaster.Role = MasterRole ∧
      (patchMasterSpec exposedMaster).1.Ports = ["8080:80/tcp", "10.0.0.5:7443:6443/tcp"] ∧
      (CreateNode sampleDefaults exposedMaster countingRuntime freshWorld).node.Ports =
        ["8080:80/tcp", "10.0.0.5:7443:6443/tcp"] :=
  ⟨rfl, (master_ports_appended exposedMaster).1,
    (master_ports_appended exposedMaster).2 Nat sampleDefaults countingRuntime freshWorld rfl⟩

/-- C2: for every worker node with original argument list `A`, after `patchWorkerSpec`, and
after `CreateNode`, the arguments are exactly `agent` followed by `A`: the first one is
`agent`, the length grows by one and `A` is the remainder, in order. -/
theorem worker_args_prepended (node : Node) :
    ((patchWorkerSpec node).1.Args = "agent" :: node.Args ∧
        (patchWorkerSpec node).1.Args.head? = some "agent" ∧
        (patchWorkerSpec node).1.Args.length = node.Args.length + 1 ∧
        (patchWorkerSpec node).1.Args.tail = node.Args) ∧
      ∀ (σ : Type) (defaults : Defaults) (runtime : Runtime σ) (w : World σ),
        node.Role = WorkerRole →
        (CreateNode defaults node runtime w).node.Args = "agent" :: node.Args ∧
          (CreateNode defaults node runtime w).node.Args.head? = some "agent" ∧
          (CreateNode defaults node runtime w).node.Args.length = node.Args.length + 1 ∧
          (CreateNode defaults node runtime w).node.Args.tail = node.Args := by
  have hp : (patchWorkerSpec node).1.Args = "agent" :: node.Args := rfl
  refine ⟨⟨hp, by rw [hp]; rfl, by rw [hp]; rfl, by rw [hp]; rfl⟩, ?_⟩
  intro σ defaults runtime w h
  have hc : (CreateNode defaults node runtime w).node.Args = "agent" :: node.Args := by
    rw [CreateNode_worker defaults node runtime w h]
    rfl
  exact ⟨hc, by rw [hc]; rfl, by rw [hc]; rfl, by rw [hc]; rfl⟩

/-- A worker with the arguments `--kubelet-arg x` is created with `agent --kubelet-arg x`. -/
theorem worker_args_prepended_witness :
    labelledWorker.Role = WorkerRole ∧
      (patchWorkerSpec labelledWorker).1.Args = ["agent", "--kubelet-arg", "x"] ∧
      (CreateNode sampleDefaults labelledWorker countingRuntime freshWorld).node.Args =
        ["agent", "--kubelet-arg", "x"] :=
  ⟨rfl, (worker_args_prepended labelledWorker).1.1,
    ((worker_args_prepended labelledWorker).2 Nat sampleDefaults countingRuntime freshWorld
      rfl).1⟩

/-- C3, as stated, fails: the control-plane node exposed on `cluster.example.com` has the
original arguments `--no-deploy`, and after `patchMasterSpec`, and after `CreateNode`, its
arguments are `server --no-deploy --tls-san cluster.example.com`, which do not end with the
original arguments. -/
theorem master_args_suffix_counterexample :
    exposedMaster.Role = MasterRole ∧
      (patchMasterSpec exposedMaster).1.Args =
        ["server", "--no-deploy", "--tls-san", "cluster.example.com"] ∧
      ¬ (exposedMaster.Args <:+ (patchMasterSpec exposedMaster).1.Args) ∧
      ¬ (exposedMaster.Args <:+
        (CreateNode sampleDefaults exposedMaster countingRuntime freshWorld).node.Args) := by
  refine ⟨rfl, rfl, ?_, ?_⟩ <;> decide

/-- C3, amended: for every control-plane node with original argument list `A`, after
`patchMasterSpec`, and after `CreateNode`, the first argument is `server` and `A` follows it
as one contiguous block; the arguments are exactly `server`, `A` when `ExposeAPI.Host` is
empty (they then end with `A`), and exactly `server`, `A`, `--tls-san`, `ExposeAPI.Host` when
it is non-empty (they then end with `--tls-san`, `ExposeAPI.Host`, which follow `A`). -/
theorem master_args_block (node : Node) :
    ((patchMasterSpec node).1.Args =
          "server" :: (node.Args ++
            (if node.MasterOpts.ExposeAPI.Host ≠ "" then
              ["--tls-san", node.MasterOpts.ExposeAPI.Host] else [])) ∧
        (patchMasterSpec node).1.Args.head? = some "server" ∧
        (node.MasterOpts.ExposeAPI.Host = "" → node.Args <:+ (patchMasterSpec node).1.Args) ∧
        ((patchMasterSpec node).1.Args.drop 1).take node.Args.length = node.Args ∧
        (node.MasterOpts.ExposeAPI.Host = "" →
          (patchMasterSpec node).1.Args = "server" :: node.Args) ∧
        (node.MasterOpts.ExposeAPI.Host ≠ "" →
          (patchMasterSpec node).1.Args =
              "server" :: (node.Args ++ ["--tls-san", node.MasterOpts.ExposeAPI.Host]) ∧
            ["--tls-san", node.MasterOpts.ExposeAPI.Host] <:+ (patchMasterSpec node).1.Args)) ∧
      ∀ (σ : Type) (defaults : Defaults) (runtime : Runtime σ) (w : World σ),
        node.Role = MasterRole →
        (CreateNode defaults node runtime w).node.Args =
            "server" :: (node.Args ++
              (if node.MasterOpts.ExposeAPI.Host ≠ "" then
                ["--tls-san", node.MasterOpts.ExposeAPI.Host] else [])) ∧
          (CreateNode defaults node runtime w).node.Args.head? = some "server" ∧
          (node.MasterOpts.ExposeAPI.Host = "" →
            node.Args <:+ (CreateNode defaults node runtime w).node.Args) ∧
          ((CreateNode defaults node runtime w).node.Args.drop 1).take node.Args.length =
            node.Args ∧
          (node.MasterOpts.ExposeAPI.Host = "" →
            (CreateNode defaults node runtime w).node.Args = "server" :: node.Args) ∧
          (node.MasterOpts.ExposeAPI.Host ≠ "" →
            (CreateNode defaults node runtime w).node.Args =
                "server" :: (node.Args ++ ["--tls-san", node.MasterOpts.ExposeAPI.Host]) ∧
              ["--tls-san", node.MasterOpts.ExposeAPI.Host] <:+
                (CreateNode defaults node runtime w).node.Args) := by
  have hp : ∀ n : Node, (patchMasterSpec n).1.Args =
      "server" :: (n.Args ++
        (if n.MasterOpts.ExposeAPI.Host ≠ "" then
          ["--tls-san", n.MasterOpts.ExposeAPI.Host] else [])) := by
    intro n
    rw [patchMasterSpec_eq]
    by_cases hh : n.MasterOpts.ExposeAPI.Host = "" <;> simp [hh]
  have hs : ∀ args : List String,
      args = "server" :: (node.Args ++
        (if node.MasterOpts.ExposeAPI.Host ≠ "" then
          ["--tls-san", node.MasterOpts.ExposeAPI.Host] else [])) →
      args.head? = some "server" ∧
        (node.MasterOpts.ExposeAPI.Host = "" → node.Args <:+ args) ∧
        (args.drop 1).take node.Args.length = node.Args ∧
        (node.MasterOpts.ExposeAPI.Host = "" → args = "server" :: node.Args) ∧
        (node.MasterOpts.ExposeAPI.Host ≠ "" →
          args = "server" :: (node.Args ++ ["--tls-san", node.MasterOpts.ExposeAPI.Host]) ∧
            ["--tls-san", node.MasterOpts.ExposeAPI.Host] <:+ args) := by
    intro args ha
    subst ha
    refine ⟨rfl, fun hh => ?_, ?_, fun hh => ?_, fun hh => ?_⟩
    · simp [hh, List.suffix_cons]
    · rw [List.drop_succ_cons, List.drop_zero, List.take_left']
      rfl
    · simp [hh]
    · rw [if_pos hh]
      exact ⟨rfl, (List.suffix_append _ _).trans (List.suffix_cons _ _)⟩
  refine ⟨⟨hp node, hs _ (hp node)⟩, ?_⟩
  intro σ defaults runtime w h
  have hc : (CreateNode defaults node runtime w).node.Args =
      "server" :: (node.Args ++
        (if node.MasterOpts.ExposeAPI.Host ≠ "" then
          ["--tls-san", node.MasterOpts.ExposeAPI.Host] else [])) := by
    rw [CreateNode_master defaults node runtime w h]
    exact hp (mergeDefaults defaults node)
  exact ⟨hc, hs _ hc⟩

/-- A control-plane node without exposure options and with the arguments `--docker -v` is
created with exactly `server --docker -v`, which end with the original arguments; the node
exposed on `cluster.example.com` with the argument `--no-deploy` is created with
`server --no-deploy --tls-san cluster.example.com`, which end with the appended pair. -/
theorem master_args_block_witness :
    plainMaster.Role = MasterRole ∧ plainMaster.MasterOpts.ExposeAPI.Host = "" ∧
      (patchMasterSpec plainMaster).1.Args = ["server", "--docker", "-v"] ∧
      plainMaster.Args <:+ (patchMasterSpec plainMaster).1.Args ∧
      (CreateNode sampleDefaults plainMaster countingRuntime freshWorld).node.Args =
        ["server", "--docker", "-v"] ∧
      plainMaster.Args <:+
        (CreateNode sampleDefaults plainMaster countingRuntime freshWorld).node.Args ∧
      exposedMaster.Role = MasterRole ∧ exposedMaster.MasterOpts.ExposeAPI.Host ≠ "" ∧
      (patchMasterSpec exposedMaster).1.Args =
        ["server", "--no-deploy", "--tls-san", "cluster.example.com"] ∧
      (CreateNode sampleDefaults exposedMaster countingRuntime freshWorld).node.Args =
        ["server", "--no-deploy", "--tls-san", "cluster.example.com"] ∧
      ["--tls-san", "cluster.example.com"] <:+
        (CreateNode sampleDefaults exposedMaster countingRuntime freshWorld).node.Args ∧
      ((CreateNode sampleDefaults exposedMaster countingRuntime freshWorld).node.Args.drop
        1).take exposedMaster.Args.length = exposedMaster.Args :=
  ⟨rfl, rfl, (master_args_block plainMaster).1.2.2.2.2.1 rfl,
    (master_args_block plainMaster).1.2.2.1 rfl,
    ((master_args_block plainMaster).2 Nat sampleDefaults countingRuntime freshWorld
      rfl).2.2.2.2.1 rfl,
    ((master_args_block plainMaster).2 Nat sampleDefaults countingRuntime freshWorld
      rfl).2.2.1 rfl,
    rfl, by decide,
    ((master_args_block exposedMaster).1.2.2.2.2.2 (by decide)).1,
    (((master_args_block exposedMaster).2 Nat sampleDefaults countingRuntime freshWorld
      rfl).2.2.2.2.2 (by decide)).1,
    (((master_args_block exposedMaster).2 Nat sampleDefaults countingRuntime freshWorld
      rfl).2.2.2.2.2 (by decide)).2,
    ((master_args_block exposedMaster).2 Nat sampleDefaults countingRuntime freshWorld
      rfl).2.2.2.1⟩

/-! ## Defaults: labels and environment -/

/-- C4: for every node with a valid role, after `CreateNode` the label mapping is
`DefaultObjectLabels` overlaid with the original labels of the node: at every key `k` that is
not a role-derivation key (`k3d.role`, `k3d.master.api.port`, `k3d.master.api.hostIP`,
`k3d.master.api.host`) the final value is the original value of the node if the node had `k`,
otherwise the value of the defaults if they have `k`, otherwise `k` is absent. -/
theorem labels_defaults_overlaid {σ : Type} (defaults : Defaults) (node : Node)
    (runtime : Runtime σ) (w : World σ) (k : String)
    (hrole : node.Role = WorkerRole ∨ node.Role = MasterRole)
    (h0 : k ≠ "k3d.role") (h1 : k ≠ "k3d.master.api.port")
    (h2 : k ≠ "k3d.master.api.hostIP") (h3 : k ≠ "k3d.master.api.host") :
    (CreateNode defaults node runtime w).node.Labels.lookup k =
      match node.Labels.lookup k with
      | some v => some v
      | none => defaults.DefaultObjectLabels.lookup k := by
  rw [← lookup_mergeDefaults defaults node k]
  rcases hrole with h | h
  · rw [CreateNode_worker defaults node runtime w h]
    exact AList.lookup_insert_ne h0
  · rw [CreateNode_master defaults node runtime w h]
    exact patchMasterSpec_lookup_other _ k h0 h1 h2 h3

/-- A worker that brings `app=mine` keeps it although the defaults say `app=k3d`. -/
theorem labels_defaults_overlaid_witness :
    (labelledWorker.Role = WorkerRole ∨ labelledWorker.Role = MasterRole) ∧
      (CreateNode sampleDefaults labelledWorker countingRuntime freshWorld).node.Labels.lookup
        "app" = some "mine" :=
  ⟨Or.inl rfl,
    labels_defaults_overlaid sampleDefaults labelledWorker countingRuntime freshWorld "app"
      (Or.inl rfl) (by decide) (by decide) (by decide) (by decide)⟩

/-- C5: for every node with a valid role, after `CreateNode` the label `k3d.role` is present
and equals `worker` for a worker node and `master` for a control-plane node, whatever the
original labels of the node and `DefaultObjectLabels` hold at `k3d.role`. -/
theorem role_label_wins {σ : Type} (defaults : Defaults) (node : Node) (runtime : Runtime σ)
    (w : World σ) :
    (node.Role = WorkerRole →
        (CreateNode defaults node runtime w).node.Labels.lookup "k3d.role" = some "worker") ∧
      (node.Role = MasterRole →
        (CreateNode defaults node runtime w).node.Labels.lookup "k3d.role" = some "master") := by
  constructor
  · intro h
    rw [CreateNode_worker defaults node runtime w h]
    exact AList.lookup_insert _
  · intro h
    rw [CreateNode_master defaults node runtime w h]
    exact patchMasterSpec_lookup_role _

/-- A worker that brings `k3d.role=custom` is created with `k3d.role=worker`, and a
control-plane node with `k3d.role=master`. -/
theorem role_label_wins_witness :
    labelledWorker.Role = WorkerRole ∧
      labelledWorker.Labels.lookup "k3d.role" = some "custom" ∧
      (CreateNode sampleDefaults labelledWorker countingRuntime freshWorld).node.Labels.lookup
        "k3d.role" = some "worker" ∧
      exposedMaster.Role = MasterRole ∧
      (CreateNode sampleDefaults exposedMaster countingRuntime freshWorld).node.Labels.lookup
        "k3d.role" = some "master" :=
  ⟨rfl, by decide,
    (role_label_wins sampleDefaults labelledWorker countingRuntime freshWorld).1 rfl, rfl,
    (role_label_wins sampleDefaults exposedMaster countingRuntime freshWorld).2 rfl⟩

/-- C6: for every node, of any role, an unknown one included, with original environment `E`,
after `CreateNode` the environment is exactly `E` followed by `DefaultNodeEnv`, in order. -/
theorem env_defaults_appended {σ : Type} (defaults : Defaults) (node : Node)
    (runtime : Runtime σ) (w : World σ) :
    (CreateNode defaults node runtime w).node.Env = node.Env ++ defaults.DefaultNodeEnv := by
  by_cases hw : node.Role = WorkerRole
  · rw [CreateNode_worker defaults node runtime w hw]
    rfl
  · by_cases hm : node.Role = MasterRole
    · rw [CreateNode_master defaults node runtime w hm]
      exact patchMasterSpec_env _
    · rw [CreateNode_unknown defaults node runtime w hw hm]
      rfl

/-! ## Errors and runtime calls -/

/-- C7: for every node whose role is neither worker nor control-plane, and for every runtime,
`CreateNode` returns a non-nil error whose message is `Unknown node role` followed by the
role between quotes, so that it contains the offending role string, and the runtime is never
invoked: no call is added to the trace and the engine state and the log are as before. -/
theorem unknown_role_rejected {σ : Type} (defaults : Defaults) (node : Node)
    (runtime : Runtime σ) (w : World σ) (hw : node.Role ≠ WorkerRole)
    (hm : node.Role ≠ MasterRole) :
    (∃ e : GoError, (CreateNode defaults node runtime w).err = some e ∧
        e.msg = "Unknown node role \x27" ++ node.Role ++ "\x27" ∧
        ∃ before after : String, e.msg = before ++ node.Role ++ after) ∧
      (CreateNode defaults node runtime w).world.calls = w.calls ∧
      (CreateNode defaults node runtime w).world = w := by
  rw [CreateNode_unknown defaults node runtime w hw hm]
  exact ⟨⟨_, rfl, rfl, _, _, rfl⟩, rfl, rfl⟩

/-- A node with the role `loadbalancer` is refused with the message
`Unknown node role` and the role between quotes, and the runtime has served nothing. -/
theorem unknown_role_rejected_witness :
    strayNode.Role ≠ WorkerRole ∧ strayNode.Role ≠ MasterRole ∧
      ((∃ e : GoError,
          (CreateNode sampleDefaults strayNode countingRuntime freshWorld).err = some e ∧
          e.msg = "Unknown node role \x27" ++ strayNode.Role ++ "\x27" ∧
          ∃ before after : String, e.msg = before ++ strayNode.Role ++ after) ∧
        (CreateNode sampleDefaults strayNode countingRuntime freshWorld).world.calls =
          freshWorld.calls ∧
        (CreateNode sampleDefaults strayNode countingRuntime freshWorld).world = freshWorld) :=
  ⟨by decide, by decide,
    unknown_role_rejected sampleDefaults strayNode countingRuntime freshWorld (by decide)
      (by decide)⟩

/-- C8: for every node with role worker or control-plane and every runtime, `CreateNode`
invokes the `CreateNode` of the runtime exactly once, on the fully derived specification
(defaults merged, role derivation applied), and returns exactly what that call returns: nil
if and only if the runtime returned nil, otherwise the error of the runtime unchanged. -/
theorem runtime_called_once {σ : Type} (defaults : Defaults) (node : Node)
    (runtime : Runtime σ) (w : World σ)
    (hrole : node.Role = WorkerRole ∨ node.Role = MasterRole) :
    (CreateNode defaults node runtime w).world.calls =
        w.calls ++ [Call.createNode (derivedSpec defaults node)] ∧
      (CreateNode defaults node runtime w).node = derivedSpec defaults node ∧
      (CreateNode defaults node runtime w).err =
        (runtime.CreateNode (derivedSpec defaults node) w.backend).1 ∧
      ((CreateNode defaults node runtime w).err = none ↔
        (runtime.CreateNode (derivedSpec defaults node) w.backend).1 = none) ∧
      (CreateNode defaults node runtime w).world.backend =
        (runtime.CreateNode (derivedSpec defaults node) w.backend).2 ∧
      (CreateNode defaults node runtime w).world.errorLog = w.errorLog := by
  rw [CreateNode_valid defaults node runtime w hrole]
  exact ⟨rfl, rfl, rfl, Iff.rfl, rfl, rfl⟩

/-- The runtime that refuses `master-1` is called once on it and its error comes back; it is
called once on the exposed control-plane node and nil comes back. -/
theorem runtime_called_once_witness :
    (plainMaster.Role = WorkerRole ∨ plainMaster.Role = MasterRole) ∧
      (CreateNode sampleDefaults plainMaster countingRuntime freshWorld).world.calls =
        freshWorld.calls ++ [Call.createNode (derivedSpec sampleDefaults plainMaster)] ∧
      (CreateNode sampleDefaults plainMaster countingRuntime freshWorld).err.map GoError.msg =
        some "create failed" ∧
      (CreateNode sampleDefaults exposedMaster countingRuntime freshWorld).err.map GoError.msg =
        none ∧
      (CreateNode sampleDefaults plainMaster countingRuntime freshWorld).world.backend = 1 :=
  ⟨Or.inr rfl,
    (runtime_called_once sampleDefaults plainMaster countingRuntime freshWorld (Or.inr rfl)).1,
    by rw [(runtime_called_once sampleDefaults plainMaster countingRuntime freshWorld
      (Or.inr rfl)).2.2.1]; decide,
    by rw [(runtime_called_once sampleDefaults exposedMaster countingRuntime freshWorld
      (Or.inr rfl)).2.2.1]; decide,
    by rw [(runtime_called_once sampleDefaults plainMaster countingRuntime freshWorld
      (Or.inr rfl)).2.2.2.2.1]; rfl⟩

/-- C9: for every list of nodes with valid roles (one value per node, so no node occurs
twice) and every runtime, whichever nodes it fails on, `CreateNodes` invokes the `CreateNode`
of the runtime once for each node, in list order, regardless of earlier failures: the calls
added to the trace are the derived specifications in input order. `CreateNodes` yields no
error value (its result holds the nodes and the world only); the errors the runtime returned
are the lines added to the error log, in order. -/
theorem batch_attempts_every_node {σ : Type} (defaults : Defaults) (runtime : Runtime σ)
    (nodes : List Node) (w : World σ)
    (hroles : ∀ node ∈ nodes, node.Role = WorkerRole ∨ node.Role = MasterRole) :
    (CreateNodes defaults nodes runtime w).2.calls =
        w.calls ++ (nodes.map (derivedSpec defaults)).map Call.createNode ∧
      ((CreateNodes defaults nodes runtime w).2.calls.length = w.calls.length + nodes.length) ∧
      (CreateNodes defaults nodes runtime w).1 = nodes.map (derivedSpec defaults) ∧
      (CreateNodes defaults nodes runtime w).2.errorLog =
        w.errorLog ++
          (createReplies runtime (nodes.map (derivedSpec defaults)) w.backend).reduceOption := by
  obtain ⟨h1, h2, h3⟩ := CreateNodes_valid defaults runtime nodes w hroles
  refine ⟨h2, ?_, h1, h3⟩
  rw [h2]
  simp

/-- A batch of three nodes whose second one, `master-1`, is refused by the runtime: the
runtime is called on all three, in order, and the one failure is in the log. -/
theorem batch_attempts_every_node_witness :
    (∀ node ∈ [exposedMaster, plainMaster, labelledWorker],
        node.Role = WorkerRole ∨ node.Role = MasterRole) ∧
      (CreateNodes sampleDefaults [exposedMaster, plainMaster, labelledWorker] countingRuntime
          freshWorld).2.calls =
        [Call.createNode (derivedSpec sampleDefaults exposedMaster),
          Call.createNode (derivedSpec sampleDefaults plainMaster),
          Call.createNode (derivedSpec sampleDefaults labelledWorker)] ∧
      (CreateNodes sampleDefaults [exposedMaster, plainMaster, labelledWorker] countingRuntime
          freshWorld).2.errorLog.map GoError.msg = ["create failed"] :=
  have hroles : ∀ node ∈ [exposedMaster, plainMaster, labelledWorker],
      node.Role = WorkerRole ∨ node.Role = MasterRole := by
    intro node hmem
    simp only [List.mem_cons, List.mem_singleton, List.not_mem_nil, or_false] at hmem
    rcases hmem with rfl | rfl | rfl
    · exact Or.inr rfl
    · exact Or.inr rfl
    · exact Or.inl rfl
  ⟨hroles,
    (batch_attempts_every_node sampleDefaults countingRuntime
      [exposedMaster, plainMaster, labelledWorker] freshWorld hroles).1,
    by rw [(batch_attempts_every_node sampleDefaults countingRuntime
      [exposedMaster, plainMaster, labelledWorker] freshWorld hroles).2.2.2]; decide⟩

/-- C10: for every node and every runtime-choice string, `DeleteNode` returns nil, both when
the `DeleteNode` of the runtime succeeds and when it returns an error; that operation is
invoked exactly once, on the given node, and an error it returns ends in the log only. -/
theorem delete_always_nil {σ : Type} (k3dDocker k3dContainerd : Runtime σ) (node : Node)
    (runtimeChoice : String) (w : World σ) :
    (DeleteNode k3dDocker k3dContainerd node runtimeChoice w).err = none ∧
      (DeleteNode k3dDocker k3dContainerd node runtimeChoice w).node = node ∧
      (DeleteNode k3dDocker k3dContainerd node runtimeChoice w).world.calls =
        w.calls ++
          [Call.deleteNode
            (if runtimeChoice = "docker" then Engine.Docker else Engine.Containerd) node] ∧
      (DeleteNode k3dDocker k3dContainerd node runtimeChoice w).world.backend =
        ((if runtimeChoice = "docker" then k3dDocker else k3dContainerd).DeleteNode node
          w.backend).2 ∧
      (DeleteNode k3dDocker k3dContainerd node runtimeChoice w).world.errorLog =
        w.errorLog ++
          ((if runtimeChoice = "docker" then k3dDocker else k3dContainerd).DeleteNode node
            w.backend).1.toList := by
  unfold DeleteNode
  by_cases hc : runtimeChoice = "docker"
  · simp only [hc, if_true]
    cases hd : (k3dDocker.DeleteNode node w.backend).1 <;> simp [hd]
  · simp only [hc, if_false]
    cases hd : (k3dContainerd.DeleteNode node w.backend).1 <;> simp [hd]

/-- C11: for every runtime-choice string `s`, `DeleteNode` selects the Docker runtime if and
only if `s` is exactly `docker`, and the containerd runtime for every other string; no string
is rejected: the one call is made and nil is returned in every case. -/
theorem delete_selects_engine {σ : Type} (k3dDocker k3dContainerd : Runtime σ) (node : Node)
    (s : String) (w : World σ) :
    ((DeleteNode k3dDocker k3dContainerd node s w).world.calls =
          w.calls ++ [Call.deleteNode Engine.Docker node] ↔ s = "docker") ∧
      ((DeleteNode k3dDocker k3dContainerd node s w).world.calls =
          w.calls ++ [Call.deleteNode Engine.Containerd node] ↔ s ≠ "docker") ∧
      (DeleteNode k3dDocker k3dContainerd node s w).world.backend =
        ((if s = "docker" then k3dDocker else k3dContainerd).DeleteNode node w.backend).2 ∧
      (DeleteNode k3dDocker k3dContainerd node s w).err = none := by
  have hcalls : (DeleteNode k3dDocker k3dContainerd node s w).world.calls =
      w.calls ++
        [Call.deleteNode (if s = "docker" then Engine.Docker else Engine.Containerd) node] := by
    unfold DeleteNode
    by_cases hc : s = "docker"
    · simp only [hc, if_true]
      cases hd : (k3dDocker.DeleteNode node w.backend).1 <;> simp [hd]
    · simp only [hc, if_false]
      cases hd : (k3dContainerd.DeleteNode node w.backend).1 <;> simp [hd]
  have hrest : (DeleteNode k3dDocker k3dContainerd node s w).world.backend =
        ((if s = "docker" then k3dDocker else k3dContainerd).DeleteNode node w.backend).2 ∧
      (DeleteNode k3dDocker k3dContainerd node s w).err = none := by
    unfold DeleteNode
    by_cases hc : s = "docker"
    · simp only [hc, if_true]
      cases hd : (k3dDocker.DeleteNode node w.backend).1 <;> simp [hd]
    · simp only [hc, if_false]
      cases hd : (k3dContainerd.DeleteNode node w.backend).1 <;> simp [hd]
  refine ⟨?_, ?_, hrest⟩
  · rw [hcalls]
    by_cases hc : s = "docker" <;> simp [hc]
  · rw [hcalls]
    by_cases hc : s = "docker" <;> simp [hc]

/-- The strings `docker`, the empty string and `Docker`: the first selects Docker, the other
two select containerd. -/
theorem delete_selects_engine_witness :
    (DeleteNode quietRuntime countingRuntime plainMaster "docker" freshWorld).world.calls =
        freshWorld.calls ++ [Call.deleteNode Engine.Docker plainMaster] ∧
      (DeleteNode quietRuntime countingRuntime plainMaster "" freshWorld).world.calls =
        freshWorld.calls ++ [Call.deleteNode Engine.Containerd plainMaster] ∧
      (DeleteNode quietRuntime countingRuntime plainMaster "Docker" freshWorld).world.calls =
        freshWorld.calls ++ [Call.deleteNode Engine.Containerd plainMaster] :=
  ⟨(delete_selects_engine quietRuntime countingRuntime plainMaster "docker" freshWorld).1.2
      rfl,
    (delete_selects_engine quietRuntime countingRuntime plainMaster "" freshWorld).2.1.2
      (by decide),
    (delete_selects_engine quietRuntime countingRuntime plainMaster "Docker" freshWorld).2.1.2
      (by decide)⟩

/-! ## The exposure options of a control-plane node -/

/-- C12, as stated, fails: the control-plane node exposed on `cluster.example.com` whose own
arguments already hold `--tls-san cluster.example.com` is created with that adjacent pair
twice. -/
theorem tls_san_once_counterexample :
    sanMaster.Role = MasterRole ∧ sanMaster.MasterOpts.ExposeAPI.Host ≠ "" ∧
      (CreateNode sampleDefaults sanMaster countingRuntime freshWorld).node.Args =
        ["server", "--tls-san", "cluster.example.com", "--tls-san", "cluster.example.com"] ∧
      countPair "--tls-san" sanMaster.MasterOpts.ExposeAPI.Host
        (CreateNode sampleDefaults sanMaster countingRuntime freshWorld).node.Args = 2 := by
  refine ⟨rfl, by decide, rfl, by decide⟩

/-- C12, amended: for every control-plane node whose `ExposeAPI.Host` is a non-empty string
`h`, after `CreateNode` the arguments are `server`, the original arguments, `--tls-san`, `h`:
the adjacent pair is appended exactly once, at the end, so it occurs at least once, and
exactly once whenever the original arguments hold no `--tls-san`; the labels hold
`k3d.master.api.host = h` and `k3d.master.api.hostIP = ExposeAPI.HostIP`. -/
theorem tls_san_appended {σ : Type} (defaults : Defaults) (node : Node) (runtime : Runtime σ)
    (w : World σ) (hrole : node.Role = MasterRole)
    (hhost : node.MasterOpts.ExposeAPI.Host ≠ "") :
    (CreateNode defaults node runtime w).node.Args =
        "server" :: (node.Args ++ ["--tls-san", node.MasterOpts.ExposeAPI.Host]) ∧
      1 ≤ countPair "--tls-san" node.MasterOpts.ExposeAPI.Host
        (CreateNode defaults node runtime w).node.Args ∧
      ("--tls-san" ∉ node.Args →
        countPair "--tls-san" node.MasterOpts.ExposeAPI.Host
          (CreateNode defaults node runtime w).node.Args = 1) ∧
      (CreateNode defaults node runtime w).node.Labels.lookup "k3d.master.api.host" =
        some node.MasterOpts.ExposeAPI.Host ∧
      (CreateNode defaults node runtime w).node.Labels.lookup "k3d.master.api.hostIP" =
        some node.MasterOpts.ExposeAPI.HostIP := by
  have hargs : (CreateNode defaults node runtime w).node.Args =
      "server" :: (node.Args ++ ["--tls-san", node.MasterOpts.ExposeAPI.Host]) := by
    rw [CreateNode_master_node defaults node runtime w hrole, patchMasterSpec_args]
    have hh : (mergeDefaults defaults node).MasterOpts.ExposeAPI.Host ≠ "" := hhost
    rw [if_pos hh]
    rfl
  have hne : ("server" : String) ≠ "--tls-san" := by decide
  have hlab : (CreateNode defaults node runtime w).node.Labels.lookup "k3d.master.api.host" =
        some node.MasterOpts.ExposeAPI.Host ∧
      (CreateNode defaults node runtime w).node.Labels.lookup "k3d.master.api.hostIP" =
        some node.MasterOpts.ExposeAPI.HostIP := by
    rw [CreateNode_master_node defaults node runtime w hrole, patchMasterSpec_eq]
    have hh : (mergeDefaults defaults node).MasterOpts.ExposeAPI.Host ≠ "" := hhost
    have hk : ("k3d.master.api.hostIP" : String) ≠ "k3d.master.api.host" := by decide
    simp only [hh, if_true, ne_eq, not_false_eq_true]
    exact ⟨AList.lookup_insert _, by rw [AList.lookup_insert_ne hk, AList.lookup_insert]; rfl⟩
  refine ⟨hargs, ?_, ?_, hlab⟩
  · rw [hargs, countPair_cons_ne _ _ _ _ hne]
    exact countPair_append_pair_pos _ _ _
  · intro hno
    rw [hargs, countPair_cons_ne _ _ _ _ hne]
    exact countPair_append_pair _ _ _ hno

/-- The second example of the spec: the node exposed on `cluster.example.com`, `10.0.0.5`
gets `--tls-san cluster.example.com` once and the two host labels. -/
theorem tls_san_appended_witness :
    exposedMaster.Role = MasterRole ∧ exposedMaster.MasterOpts.ExposeAPI.Host ≠ "" ∧
      "--tls-san" ∉ exposedMaster.Args ∧
      (CreateNode sampleDefaults exposedMaster countingRuntime freshWorld).node.Args =
        ["server", "--no-deploy", "--tls-san", "cluster.example.com"] ∧
      countPair "--tls-san" "cluster.example.com"
        (CreateNode sampleDefaults exposedMaster countingRuntime freshWorld).node.Args = 1 ∧
      (CreateNode sampleDefaults exposedMaster countingRuntime
        freshWorld).node.Labels.lookup "k3d.master.api.host" = some "cluster.example.com" ∧
      (CreateNode sampleDefaults exposedMaster countingRuntime
        freshWorld).node.Labels.lookup "k3d.master.api.hostIP" = some "10.0.0.5" :=
  have h := tls_san_appended sampleDefaults exposedMaster countingRuntime freshWorld rfl
    (by decide)
  ⟨rfl, by decide, by decide, h.1, h.2.2.1 (by decide), h.2.2.2.1, h.2.2.2.2⟩

/-- C13, as stated, fails: a control-plane node without exposure host whose own arguments
hold a `--tls-san` and whose own labels hold the two host keys keeps all three through
`CreateNode`. -/
theorem no_host_absent_counterexample :
    hostlessMaster.Role = MasterRole ∧ hostlessMaster.MasterOpts.ExposeAPI.Host = "" ∧
      "--tls-san" ∈ (CreateNode sampleDefaults hostlessMaster countingRuntime
        freshWorld).node.Args ∧
      (CreateNode sampleDefaults hostlessMaster countingRuntime
        freshWorld).node.Labels.lookup "k3d.master.api.host" = some "old.example.com" ∧
      (CreateNode sampleDefaults hostlessMaster countingRuntime
        freshWorld).node.Labels.lookup "k3d.master.api.hostIP" = some "192.168.0.1" := by
  refine ⟨rfl, rfl, by decide, by decide, by decide⟩

/-- C13, amended: for every control-plane node whose `ExposeAPI.Host` is empty, `CreateNode`
adds no `--tls-san` and writes neither host label: the arguments are exactly `server`
followed by the original arguments, so they hold a `--tls-san` only if the original ones
did, and the keys `k3d.master.api.host` and `k3d.master.api.hostIP` hold what the original
labels, else the defaults, held, and are absent when neither has them. -/
theorem no_host_nothing_added {σ : Type} (defaults : Defaults) (node : Node)
    (runtime : Runtime σ) (w : World σ) (hrole : node.Role = MasterRole)
    (hhost : node.MasterOpts.ExposeAPI.Host = "") :
    (CreateNode defaults node runtime w).node.Args = "server" :: node.Args ∧
      ("--tls-san" ∈ (CreateNode defaults node runtime w).node.Args ↔
        "--tls-san" ∈ node.Args) ∧
      (∀ k : String, k = "k3d.master.api.host" ∨ k = "k3d.master.api.hostIP" →
        ((CreateNode defaults node runtime w).node.Labels.lookup k =
            match node.Labels.lookup k with
            | some v => some v
            | none => defaults.DefaultObjectLabels.lookup k) ∧
          (node.Labels.lookup k = none → defaults.DefaultObjectLabels.lookup k = none →
            (CreateNode defaults node runtime w).node.Labels.lookup k = none)) := by
  have hh : (mergeDefaults defaults node).MasterOpts.ExposeAPI.Host = "" := hhost
  have hargs : (CreateNode defaults node runtime w).node.Args = "server" :: node.Args := by
    rw [CreateNode_master_node defaults node runtime w hrole, patchMasterSpec_args]
    simp only [hh, ne_eq, not_true_eq_false, if_false, List.append_nil]
    rfl
  have hne : ("--tls-san" : String) ≠ "server" := by decide
  have hlab : ∀ k : String, k = "k3d.master.api.host" ∨ k = "k3d.master.api.hostIP" →
      (CreateNode defaults node runtime w).node.Labels.lookup k =
        match node.Labels.lookup k with
        | some v => some v
        | none => defaults.DefaultObjectLabels.lookup k := by
    intro k hk
    have h0 : k ≠ "k3d.role" := by rcases hk with rfl | rfl <;> decide
    have h1 : k ≠ "k3d.master.api.port" := by rcases hk with rfl | rfl <;> decide
    rw [← lookup_mergeDefaults defaults node k,
      CreateNode_master_node defaults node runtime w hrole, patchMasterSpec_eq]
    by_cases hp : (mergeDefaults defaults node).MasterOpts.ExposeAPI.Port = "" <;>
      simp [hh, hp, AList.lookup_insert_ne h0, AList.lookup_insert_ne h1]
  refine ⟨hargs, ?_, ?_⟩
  · rw [hargs, List.mem_cons]
    exact ⟨fun h => h.resolve_left hne, Or.inr⟩
  · intro k hk
    refine ⟨hlab k hk, fun hn hd => ?_⟩
    rw [hlab k hk, hn, hd]

/-- A control-plane node without exposure options and without host labels is created with
`server` and its own arguments, and without the two host labels. -/
theorem no_host_nothing_added_witness :
    plainMaster.Role = MasterRole ∧ plainMaster.MasterOpts.ExposeAPI.Host = "" ∧
      (CreateNode sampleDefaults plainMaster countingRuntime freshWorld).node.Args =
        ["server", "--docker", "-v"] ∧
      (CreateNode sampleDefaults plainMaster countingRuntime
        freshWorld).node.Labels.lookup "k3d.master.api.host" = none ∧
      (CreateNode sampleDefaults plainMaster countingRuntime
        freshWorld).node.Labels.lookup "k3d.master.api.hostIP" = none :=
  have h := no_host_nothing_added sampleDefaults plainMaster countingRuntime freshWorld rfl rfl
  ⟨rfl, rfl, h.1, (h.2.2 "k3d.master.api.host" (Or.inl rfl)).2 (by decide) (by decide),
    (h.2.2 "k3d.master.api.hostIP" (Or.inr rfl)).2 (by decide) (by decide)⟩

/-- C14, as stated, fails: a control-plane node without exposure options whose own ports
already hold `0.0.0.0:6443:6443/tcp` is created with that entry twice. -/
theorem one_mapping_counterexample :
    boundMaster.Role = MasterRole ∧
      (CreateNode sampleDefaults boundMaster countingRuntime freshWorld).node.Ports =
        ["0.0.0.0:6443:6443/tcp", "0.0.0.0:6443:6443/tcp"] ∧
      (CreateNode sampleDefaults boundMaster countingRuntime freshWorld).node.Ports.count
        "0.0.0.0:6443:6443/tcp" = 2 := by
  refine ⟨rfl, rfl, by decide⟩

/-- C14, amended: for every control-plane node, after `CreateNode` the ports are the original
ports followed by the generated mapping `<hostIP>:<apiPort>:6443/tcp`: exactly one entry is
appended, so the mapping occurs once more than in the original ports, and exactly once
whenever the original ports do not hold it. -/
theorem one_mapping_appended {σ : Type} (defaults : Defaults) (node : Node)
    (runtime : Runtime σ) (w : World σ) (mapping : String)
    (hrole : node.Role = MasterRole)
    (hmapping : mapping =
      (if node.MasterOpts.ExposeAPI.Host ≠ "" then node.MasterOpts.ExposeAPI.HostIP
        else "0.0.0.0") ++ ":" ++
        (if node.MasterOpts.ExposeAPI.Port ≠ "" then node.MasterOpts.ExposeAPI.Port
        else "6443") ++ ":6443/tcp") :
    (CreateNode defaults node runtime w).node.Ports = node.Ports ++ [mapping] ∧
      (CreateNode defaults node runtime w).node.Ports.length = node.Ports.length + 1 ∧
      (CreateNode defaults node runtime w).node.Ports.count mapping =
        node.Ports.count mapping + 1 ∧
      (mapping ∉ node.Ports →
        (CreateNode defaults node runtime w).node.Ports.count mapping = 1) := by
  have hports : (CreateNode defaults node runtime w).node.Ports = node.Ports ++ [mapping] := by
    rw [CreateNode_master_node defaults node runtime w hrole, patchMasterSpec_ports, hmapping]
    rfl
  refine ⟨hports, by rw [hports]; simp, by rw [hports]; simp, fun hno => ?_⟩
  rw [hports, List.count_append, List.count_eq_zero_of_not_mem hno]
  simp

/-- The second example of the spec: the node exposed on `10.0.0.5`, `7443` holds the mapping
`10.0.0.5:7443:6443/tcp` exactly once. -/
theorem one_mapping_appended_witness :
    exposedMaster.Role = MasterRole ∧
      "10.0.0.5:7443:6443/tcp" ∉ exposedMaster.Ports ∧
      (CreateNode sampleDefaults exposedMaster countingRuntime freshWorld).node.Ports =
        exposedMaster.Ports ++ ["10.0.0.5:7443:6443/tcp"] ∧
      (CreateNode sampleDefaults exposedMaster countingRuntime freshWorld).node.Ports.count
        "10.0.0.5:7443:6443/tcp" = 1 :=
  have h := one_mapping_appended sampleDefaults exposedMaster countingRuntime freshWorld
    "10.0.0.5:7443:6443/tcp" rfl (by decide)
  ⟨rfl, by decide, h.1, h.2.2.2 (by decide)⟩

/-- C15, as stated, fails: a control-plane node with an exposure host but no host IP (and no
port) gets the mapping `:6443:6443/tcp`, whose host-IP part is empty and not `0.0.0.0`. -/
theorem default_host_ip_counterexample :
    namedMaster.Role = MasterRole ∧ namedMaster.MasterOpts.ExposeAPI.HostIP = "" ∧
      (patchMasterSpec namedMaster).1.Ports = [":6443:6443/tcp"] ∧
      (CreateNode sampleDefaults namedMaster countingRuntime freshWorld).node.Ports =
        [":6443:6443/tcp"] ∧
      (patchMasterSpec namedMaster).1.Ports ≠ namedMaster.Ports ++ ["0.0.0.0:6443:6443/tcp"] := by
  refine ⟨rfl, rfl, rfl, rfl, by decide⟩

/-- C15, amended: for every control-plane node, the host-IP part of the appended port mapping
is `0.0.0.0` whenever `ExposeAPI.Host` is empty (whatever `ExposeAPI.HostIP` holds) and is
`ExposeAPI.HostIP` as it is whenever `ExposeAPI.Host` is non-empty; the port part is `6443`
whenever `ExposeAPI.Port` is empty; a node with no exposure options gets
`0.0.0.0:6443:6443/tcp`. `CreateNode` leaves the ports of `patchMasterSpec`. -/
theorem default_mapping_parts (node : Node) :
    (node.MasterOpts.ExposeAPI.Host = "" →
        (patchMasterSpec node).1.Ports =
          node.Ports ++
            ["0.0.0.0" ++ ":" ++
              (if node.MasterOpts.ExposeAPI.Port ≠ "" then node.MasterOpts.ExposeAPI.Port
              else "6443") ++ ":6443/tcp"]) ∧
      (node.MasterOpts.ExposeAPI.Host ≠ "" →
        (patchMasterSpec node).1.Ports =
          node.Ports ++
            [node.MasterOpts.ExposeAPI.HostIP ++ ":" ++
              (if node.MasterOpts.ExposeAPI.Port ≠ "" then node.MasterOpts.ExposeAPI.Port
              else "6443") ++ ":6443/tcp"]) ∧
      (node.MasterOpts.ExposeAPI.Port = "" →
        (patchMasterSpec node).1.Ports =
          node.Ports ++
            [(if node.MasterOpts.ExposeAPI.Host ≠ "" then node.MasterOpts.ExposeAPI.HostIP
              else "0.0.0.0") ++ ":" ++ "6443" ++ ":6443/tcp"]) ∧
      (node.MasterOpts.ExposeAPI.Host = "" → node.MasterOpts.ExposeAPI.Port = "" →
        (patchMasterSpec node).1.Ports = node.Ports ++ ["0.0.0.0:6443:6443/tcp"]) ∧
      ∀ (σ : Type) (defaults : Defaults) (runtime : Runtime σ) (w : World σ),
        node.Role = MasterRole →
        (CreateNode defaults node runtime w).node.Ports = (patchMasterSpec node).1.Ports := by
  refine ⟨fun hh => ?_, fun hh => ?_, fun hp => ?_, fun hh hp => ?_, ?_⟩
  · rw [patchMasterSpec_ports]; simp [hh]
  · rw [patchMasterSpec_ports]; simp [hh]
  · rw [patchMasterSpec_ports]; simp [hp]
  · rw [patchMasterSpec_ports]; simp only [hh, hp, ne_eq, not_true_eq_false, if_false]; rfl
  · intro σ defaults runtime w hrole
    rw [CreateNode_master_node defaults node runtime w hrole, patchMasterSpec_ports,
      patchMasterSpec_ports]
    rfl

/-- A control-plane node without exposure options gets `0.0.0.0:6443:6443/tcp`, and one that
supplies a host IP without a host gets `0.0.0.0` as well. -/
theorem default_mapping_parts_witness :
    plainMaster.MasterOpts.ExposeAPI.Host = "" ∧ plainMaster.MasterOpts.ExposeAPI.Port = "" ∧
      plainMaster.Role = MasterRole ∧
      (patchMasterSpec plainMaster).1.Ports = plainMaster.Ports ++ ["0.0.0.0:6443:6443/tcp"] ∧
      (CreateNode sampleDefaults plainMaster countingRuntime freshWorld).node.Ports =
        (patchMasterSpec plainMaster).1.Ports ∧
      hostlessMaster.MasterOpts.ExposeAPI.HostIP = "10.0.0.5" ∧
      (patchMasterSpec hostlessMaster).1.Ports =
        hostlessMaster.Ports ++ ["0.0.0.0:6443:6443/tcp"] :=
  ⟨rfl, rfl, rfl, (default_mapping_parts plainMaster).2.2.2.1 rfl rfl,
    (default_mapping_parts plainMaster).2.2.2.2 Nat sampleDefaults countingRuntime freshWorld
      rfl,
    rfl, (default_mapping_parts hostlessMaster).2.2.2.1 rfl rfl⟩

/-! ## Applying the role derivation twice, and what it leaves alone -/

/-- C16: role derivation is not idempotent. For every node, `patchMasterSpec` applied twice
gives a specification different from `patchMasterSpec` applied once: its arguments begin
`server`, `server` and its ports end with the generated mapping twice. Likewise
`patchWorkerSpec` applied twice differs from once and gives arguments beginning `agent`,
`agent`. -/
theorem derivation_not_idempotent (node : Node) :
    ((patchMasterSpec (patchMasterSpec node).1).1 ≠ (patchMasterSpec node).1 ∧
        (patchMasterSpec (patchMasterSpec node).1).1.Args.take 2 = ["server", "server"] ∧
        (patchMasterSpec (patchMasterSpec node).1).1.Ports =
          node.Ports ++
            [(if node.MasterOpts.ExposeAPI.Host ≠ "" then node.MasterOpts.ExposeAPI.HostIP
              else "0.0.0.0") ++ ":" ++
              (if node.MasterOpts.ExposeAPI.Port ≠ "" then node.MasterOpts.ExposeAPI.Port
              else "6443") ++ ":6443/tcp",
            (if node.MasterOpts.ExposeAPI.Host ≠ "" then node.MasterOpts.ExposeAPI.HostIP
              else "0.0.0.0") ++ ":" ++
              (if node.MasterOpts.ExposeAPI.Port ≠ "" then node.MasterOpts.ExposeAPI.Port
              else "6443") ++ ":6443/tcp"]) ∧
      ((patchWorkerSpec (patchWorkerSpec node).1).1 ≠ (patchWorkerSpec node).1 ∧
        (patchWorkerSpec (patchWorkerSpec node).1).1.Args = "agent" :: "agent" :: node.Args ∧
        (patchWorkerSpec (patchWorkerSpec node).1).1.Args.take 2 = ["agent", "agent"]) := by
  have hports : (patchMasterSpec (patchMasterSpec node).1).1.Ports =
      (patchMasterSpec node).1.Ports ++
        [(if node.MasterOpts.ExposeAPI.Host ≠ "" then node.MasterOpts.ExposeAPI.HostIP
          else "0.0.0.0") ++ ":" ++
          (if node.MasterOpts.ExposeAPI.Port ≠ "" then node.MasterOpts.ExposeAPI.Port
          else "6443") ++ ":6443/tcp"] := by
    rw [patchMasterSpec_ports (patchMasterSpec node).1, patchMasterSpec_opts]
  have hwargs : (patchWorkerSpec (patchWorkerSpec node).1).1.Args =
      "agent" :: "agent" :: node.Args := rfl
  refine ⟨⟨fun heq => ?_, ?_, ?_⟩, fun heq => ?_, hwargs, by rw [hwargs]; rfl⟩
  · have hlen := congrArg (fun n : Node => n.Ports.length) heq
    simp only [hports, List.length_append, List.length_singleton] at hlen
    omega
  · rw [patchMasterSpec_args (patchMasterSpec node).1, patchMasterSpec_args node]
    rfl
  · rw [hports, patchMasterSpec_ports node, List.append_assoc]
    rfl
  · have hlen := congrArg (fun n : Node => n.Args.length) heq
    have hone : (patchWorkerSpec node).1.Args = "agent" :: node.Args := rfl
    simp only [hwargs, hone, List.length_cons] at hlen
    omega

/-- C17: role derivation has no effect on unrelated fields. For every node, `patchWorkerSpec`
leaves name, role, environment, ports and role options unchanged and changes no label other
than `k3d.role`; `patchMasterSpec` leaves name, role, environment and role options unchanged
and changes no label other than `k3d.role`, `k3d.master.api.port`, `k3d.master.api.hostIP`
and `k3d.master.api.host`. -/
theorem derivation_frame (node : Node) :
    ((patchWorkerSpec node).1.Name = node.Name ∧
        (patchWorkerSpec node).1.Role = node.Role ∧
        (patchWorkerSpec node).1.Env = node.Env ∧
        (patchWorkerSpec node).1.Ports = node.Ports ∧
        (patchWorkerSpec node).1.MasterOpts = node.MasterOpts ∧
        ∀ k : String, k ≠ "k3d.role" →
          (patchWorkerSpec node).1.Labels.lookup k = node.Labels.lookup k) ∧
      ((patchMasterSpec node).1.Name = node.Name ∧
        (patchMasterSpec node).1.Role = node.Role ∧
        (patchMasterSpec node).1.Env = node.Env ∧
        (patchMasterSpec node).1.MasterOpts = node.MasterOpts ∧
        ∀ k : String, k ≠ "k3d.role" → k ≠ "k3d.master.api.port" →
          k ≠ "k3d.master.api.hostIP" → k ≠ "k3d.master.api.host" →
          (patchMasterSpec node).1.Labels.lookup k = node.Labels.lookup k) := by
  refine ⟨⟨rfl, rfl, rfl, rfl, rfl, fun k hk => AList.lookup_insert_ne hk⟩, ?_, ?_,
    patchMasterSpec_env node, patchMasterSpec_opts node,
    fun k h0 h1 h2 h3 => patchMasterSpec_lookup_other node k h0 h1 h2 h3⟩
  · rw [patchMasterSpec_eq]
  · rw [patchMasterSpec_eq]

/-- The label `app=mine` of a worker, and of the same node patched as a control-plane node,
is left as it was. -/
theorem derivation_frame_witness :
    ("app" : String) ≠ "k3d.role" ∧
      (patchWorkerSpec labelledWorker).1.Labels.lookup "app" = some "mine" ∧
      (patchMasterSpec labelledWorker).1.Labels.lookup "app" = some "mine" ∧
      (patchWorkerSpec labelledWorker).1.Env = ["B=2"] ∧
      (patchMasterSpec labelledWorker).1.Env = ["B=2"] :=
  ⟨by decide,
    ((derivation_frame labelledWorker).1.2.2.2.2.2 "app" (by decide)).trans (by decide),
    ((derivation_frame labelledWorker).2.2.2.2.2 "app" (by decide) (by decide) (by decide)
      (by decide)).trans (by decide),
    (derivation_frame labelledWorker).1.2.2.1, (derivation_frame labelledWorker).2.2.2.1⟩

/-- C18: for every control-plane node, `patchMasterSpec` writes the label
`k3d.master.api.port` if and only if `ExposeAPI.Port` is non-empty: with a non-empty port the
label is exactly `ExposeAPI.Port`, whatever the labels held; with an empty port the label is
present or absent, and valued, as the labels held it before the derivation (in `CreateNode`:
as the merge of the defaults and the original labels left it), while the port mapping uses
`6443`. -/
theorem api_port_label (node : Node) :
    (node.MasterOpts.ExposeAPI.Port ≠ "" →
        (patchMasterSpec node).1.Labels.lookup "k3d.master.api.port" =
          some node.MasterOpts.ExposeAPI.Port) ∧
      (node.MasterOpts.ExposeAPI.Port = "" →
        (patchMasterSpec node).1.Labels.lookup "k3d.master.api.port" =
            node.Labels.lookup "k3d.master.api.port" ∧
          (patchMasterSpec node).1.Ports =
            node.Ports ++
              [(if node.MasterOpts.ExposeAPI.Host ≠ "" then node.MasterOpts.ExposeAPI.HostIP
                else "0.0.0.0") ++ ":" ++ "6443" ++ ":6443/tcp"]) ∧
      ∀ (σ : Type) (defaults : Defaults) (runtime : Runtime σ) (w : World σ),
        node.Role = MasterRole →
        (node.MasterOpts.ExposeAPI.Port ≠ "" →
          (CreateNode defaults node runtime w).node.Labels.lookup "k3d.master.api.port" =
            some node.MasterOpts.ExposeAPI.Port) ∧
        (node.MasterOpts.ExposeAPI.Port = "" →
          (CreateNode defaults node runtime w).node.Labels.lookup "k3d.master.api.port" =
            match node.Labels.lookup "k3d.master.api.port" with
            | some v => some v
            | none => defaults.DefaultObjectLabels.lookup "k3d.master.api.port") := by
  have h0 : ("k3d.master.api.port" : String) ≠ "k3d.role" := by decide
  have h2 : ("k3d.master.api.port" : String) ≠ "k3d.master.api.hostIP" := by decide
  have h3 : ("k3d.master.api.port" : String) ≠ "k3d.master.api.host" := by decide
  have hset : ∀ n : Node, n.MasterOpts.ExposeAPI.Port ≠ "" →
      (patchMasterSpec n).1.Labels.lookup "k3d.master.api.port" =
        some n.MasterOpts.ExposeAPI.Port := by
    intro n hp
    rw [patchMasterSpec_eq]
    by_cases hh : n.MasterOpts.ExposeAPI.Host = "" <;>
      simp [hp, hh, AList.lookup_insert_ne h2, AList.lookup_insert_ne h3, AList.lookup_insert]
  have hkeep : ∀ n : Node, n.MasterOpts.ExposeAPI.Port = "" →
      (patchMasterSpec n).1.Labels.lookup "k3d.master.api.port" =
        n.Labels.lookup "k3d.master.api.port" := by
    intro n hp
    rw [patchMasterSpec_eq]
    by_cases hh : n.MasterOpts.ExposeAPI.Host = "" <;>
      simp [hp, hh, AList.lookup_insert_ne h0, AList.lookup_insert_ne h2,
        AList.lookup_insert_ne h3]
  refine ⟨hset node, fun hp => ⟨hkeep node hp, ?_⟩, ?_⟩
  · rw [patchMasterSpec_ports]
    simp [hp]
  · intro σ defaults runtime w hrole
    rw [CreateNode_master_node defaults node runtime w hrole]
    refine ⟨fun hp => hset (mergeDefaults defaults node) hp, fun hp => ?_⟩
    rw [hkeep (mergeDefaults defaults node) hp, lookup_mergeDefaults]

/-- The node exposed on port `7443` gets the label `k3d.master.api.port=7443`; the node
without exposure options gets no such label although its mapping uses `6443`. -/
theorem api_port_label_witness :
    exposedMaster.MasterOpts.ExposeAPI.Port ≠ "" ∧
      (patchMasterSpec exposedMaster).1.Labels.lookup "k3d.master.api.port" = some "7443" ∧
      plainMaster.MasterOpts.ExposeAPI.Port = "" ∧ plainMaster.Role = MasterRole ∧
      (patchMasterSpec plainMaster).1.Labels.lookup "k3d.master.api.port" = none ∧
      (patchMasterSpec plainMaster).1.Ports = ["0.0.0.0:6443:6443/tcp"] ∧
      (CreateNode sampleDefaults plainMaster countingRuntime
        freshWorld).node.Labels.lookup "k3d.master.api.port" = none :=
  ⟨by decide, (api_port_label exposedMaster).1 (by decide), rfl, rfl,
    ((api_port_label plainMaster).2.1 rfl).1.trans (by decide),
    ((api_port_label plainMaster).2.1 rfl).2,
    (((api_port_label plainMaster).2.2 Nat sampleDefaults countingRuntime freshWorld rfl).2
      rfl).trans (by decide)⟩

/-! ## The early return, and the host IP without a host -/

/-- C19: `CreateNode` is not atomic on the unknown-role error. For every node whose role is
neither worker nor control-plane, when `CreateNode` returns its error the name, role,
arguments and ports (and role options) of the node are unchanged, but its labels are already
`DefaultObjectLabels` overlaid with the original labels and its environment already has
`DefaultNodeEnv` appended; with a non-empty `DefaultNodeEnv` the node is not the one handed
in. -/
theorem unknown_role_leaves_merge {σ : Type} (defaults : Defaults) (node : Node)
    (runtime : Runtime σ) (w : World σ) (hw : node.Role ≠ WorkerRole)
    (hm : node.Role ≠ MasterRole) :
    (CreateNode defaults node runtime w).err ≠ none ∧
      (CreateNode defaults node runtime w).node.Name = node.Name ∧
      (CreateNode defaults node runtime w).node.Role = node.Role ∧
      (CreateNode defaults node runtime w).node.Args = node.Args ∧
      (CreateNode defaults node runtime w).node.Ports = node.Ports ∧
      (CreateNode defaults node runtime w).node.MasterOpts = node.MasterOpts ∧
      (∀ k : String,
        (CreateNode defaults node runtime w).node.Labels.lookup k =
          match node.Labels.lookup k with
          | some v => some v
          | none => defaults.DefaultObjectLabels.lookup k) ∧
      (CreateNode defaults node runtime w).node.Env = node.Env ++ defaults.DefaultNodeEnv ∧
      (defaults.DefaultNodeEnv ≠ [] → (CreateNode defaults node runtime w).node ≠ node) := by
  rw [CreateNode_unknown defaults node runtime w hw hm]
  refine ⟨by simp, rfl, rfl, rfl, rfl, rfl, fun k => lookup_mergeDefaults defaults node k, rfl,
    fun hne heq => ?_⟩
  have henv : node.Env ++ defaults.DefaultNodeEnv = node.Env :=
    congrArg (fun n : Node => n.Env) heq
  exact hne (List.append_right_eq_self.1 henv)

/-- The node with the role `loadbalancer` is refused, yet it comes back with the default
label `app=k3d` and the default environment entry after its own. -/
theorem unknown_role_leaves_merge_witness :
    strayNode.Role ≠ WorkerRole ∧ strayNode.Role ≠ MasterRole ∧
      sampleDefaults.DefaultNodeEnv ≠ [] ∧
      (CreateNode sampleDefaults strayNode countingRuntime freshWorld).err ≠ none ∧
      (CreateNode sampleDefaults strayNode countingRuntime freshWorld).node.Args = ["run"] ∧
      (CreateNode sampleDefaults strayNode countingRuntime freshWorld).node.Ports = ["80:80"] ∧
      (CreateNode sampleDefaults strayNode countingRuntime freshWorld).node.Labels.lookup
        "app" = some "k3d" ∧
      (CreateNode sampleDefaults strayNode countingRuntime freshWorld).node.Env =
        ["C=3", "K3S_KUBECONFIG_OUTPUT=/output/kubeconfig.yaml"] ∧
      (CreateNode sampleDefaults strayNode countingRuntime freshWorld).node ≠ strayNode :=
  have h := unknown_role_leaves_merge sampleDefaults strayNode countingRuntime freshWorld
    (by decide) (by decide)
  ⟨by decide, by decide, by decide, h.1, h.2.2.2.1, h.2.2.2.2.1,
    (h.2.2.2.2.2.2.1 "app").trans (by decide), h.2.2.2.2.2.2.2.1,
    h.2.2.2.2.2.2.2.2 (by decide)⟩

/-- C20: with an empty `ExposeAPI.Host` the field `ExposeAPI.HostIP` has no influence. For any
two nodes that are equal except for `ExposeAPI.HostIP` and both have an empty
`ExposeAPI.Host`, `patchMasterSpec` gives the same arguments, labels and ports; the mapping
uses `0.0.0.0` and the label `k3d.master.api.hostIP` is left as it was. -/
theorem host_ip_ignored_without_host (n₁ n₂ : Node) (hname : n₁.Name = n₂.Name)
    (hrole : n₁.Role = n₂.Role) (hlabels : n₁.Labels = n₂.Labels) (henv : n₁.Env = n₂.Env)
    (hargs : n₁.Args = n₂.Args) (hports : n₁.Ports = n₂.Ports)
    (hport : n₁.MasterOpts.ExposeAPI.Port = n₂.MasterOpts.ExposeAPI.Port)
    (hhost₁ : n₁.MasterOpts.ExposeAPI.Host = "")
    (hhost₂ : n₂.MasterOpts.ExposeAPI.Host = "") :
    (patchMasterSpec n₁).1.Args = (patchMasterSpec n₂).1.Args ∧
      (patchMasterSpec n₁).1.Labels = (patchMasterSpec n₂).1.Labels ∧
      (patchMasterSpec n₁).1.Ports = (patchMasterSpec n₂).1.Ports ∧
      (patchMasterSpec n₁).1.Name = (patchMasterSpec n₂).1.Name ∧
      (patchMasterSpec n₁).1.Role = (patchMasterSpec n₂).1.Role ∧
      (patchMasterSpec n₁).1.Env = (patchMasterSpec n₂).1.Env ∧
      (patchMasterSpec n₁).1.Ports =
        n₁.Ports ++
          ["0.0.0.0" ++ ":" ++
            (if n₁.MasterOpts.ExposeAPI.Port ≠ "" then n₁.MasterOpts.ExposeAPI.Port
            else "6443") ++ ":6443/tcp"] ∧
      (patchMasterSpec n₁).1.Labels.lookup "k3d.master.api.hostIP" =
        n₁.Labels.lookup "k3d.master.api.hostIP" := by
  have h0 : ("k3d.master.api.hostIP" : String) ≠ "k3d.role" := by decide
  have h1 : ("k3d.master.api.hostIP" : String) ≠ "k3d.master.api.port" := by decide
  refine ⟨?_, ?_, ?_, ?_, ?_, ?_, ?_, ?_⟩
  · rw [patchMasterSpec_args, patchMasterSpec_args, hargs, hhost₁, hhost₂]
  · rw [patchMasterSpec_eq, patchMasterSpec_eq]
    simp [hhost₁, hhost₂, hport, hlabels]
  · rw [patchMasterSpec_ports, patchMasterSpec_ports, hports, hport, hhost₁, hhost₂]
    simp
  · rw [patchMasterSpec_eq, patchMasterSpec_eq]
    exact hname
  · rw [patchMasterSpec_eq, patchMasterSpec_eq]
    exact hrole
  · rw [patchMasterSpec_env, patchMasterSpec_env, henv]
  · rw [patchMasterSpec_ports]
    simp [hhost₁]
  · rw [patchMasterSpec_eq]
    by_cases hp : n₁.MasterOpts.ExposeAPI.Port = "" <;>
      simp [hhost₁, hp, AList.lookup_insert_ne h0, AList.lookup_insert_ne h1]

/-- Two control-plane nodes without host that supply the host IPs `10.0.0.5` and `172.16.0.9`
are patched to the same arguments, labels and ports, with the mapping on `0.0.0.0`. -/
theorem host_ip_ignored_without_host_witness :
    hostlessMaster.MasterOpts.ExposeAPI.HostIP ≠
        hostlessMasterOtherIP.MasterOpts.ExposeAPI.HostIP ∧
      hostlessMaster.MasterOpts.ExposeAPI.Host = "" ∧
      hostlessMasterOtherIP.MasterOpts.ExposeAPI.Host = "" ∧
      (patchMasterSpec hostlessMaster).1.Args = (patchMasterSpec hostlessMasterOtherIP).1.Args ∧
      (patchMasterSpec hostlessMaster).1.Labels =
        (patchMasterSpec hostlessMasterOtherIP).1.Labels ∧
      (patchMasterSpec hostlessMaster).1.Ports =
        (patchMasterSpec hostlessMasterOtherIP).1.Ports ∧
      (patchMasterSpec hostlessMaster).1.Ports = ["0.0.0.0:6443:6443/tcp"] :=
  have h := host_ip_ignored_without_host hostlessMaster hostlessMasterOtherIP rfl rfl rfl rfl
    rfl rfl rfl rfl rfl
  ⟨by decide, rfl, rfl, h.1, h.2.1, h.2.2.1, h.2.2.2.2.2.2.1⟩

end Cluster
